import Mathlib

/-!
Verification development for the `special_agent` voice-assistant command
orchestrator.  The Python sources are shallowly embedded: pure functions are
translated to Lean functions, the mutable session dictionary is modelled as a
map `String → Option Session` transformed explicitly, external collaborators
(the LLM provider, the embedding provider, the command executor, the file
system) are abstracted as explicit inputs, and Python strings are handled via
their character lists so that everything is computable.
-/

namespace SpecialAgent

/-! ### String helpers mirroring the Python primitives used by the source -/

/-- Python `str.lower()` restricted to ASCII (all vocabulary in the source is
ASCII), character by character. -/
def pyLower (s : String) : String :=
  String.mk (s.data.map Char.toLower)

/-- Python `str.strip()`: drop whitespace from both ends. -/
def pyStrip (s : String) : String :=
  String.mk (((s.data.dropWhile Char.isWhitespace).reverse.dropWhile
    Char.isWhitespace).reverse)

/-- Whether `pat` occurs at the start of `s` (character lists). -/
def listStarts : List Char → List Char → Bool
  | [], _ => true
  | _ :: _, [] => false
  | p :: ps, c :: cs => p = c && listStarts ps cs

/-- Whether `pat` occurs somewhere inside `s` (character lists); this is
Python's `pat in s` for strings. -/
def listHasSub (pat : List Char) : List Char → Bool
  | [] => pat.isEmpty
  | c :: cs => listStarts pat (c :: cs) || listHasSub pat cs

/-- Python `pat in s` substring test. -/
def strIn (pat s : String) : Bool :=
  listHasSub pat.data s.data

/-- Python `s[:n]` on a string: the first `n` characters. -/
def strTake (n : Nat) (s : String) : String :=
  String.mk (s.data.take n)

/-- Python `sep.join(parts)`. -/
def joinSep (sep : String) : List String → String
  | [] => ""
  | [x] => x
  | x :: y :: xs => x ++ sep ++ joinSep sep (y :: xs)

/-- Python `s.split(".")[0]`: the characters before the first dot. -/
def beforeFirstDot (s : String) : String :=
  String.mk (s.data.takeWhile (fun c => c != '.'))

/-! ### Data model

A retrieval document is a dict `{"page_content": ..., "metadata": {...}}`;
the metadata keys read by the source are `"entity_id"` and `"domain"`, each
possibly absent (`Option`). -/

structure DocMeta where
  entity_id : Option String
  domain : Option String
deriving DecidableEq

structure Doc where
  page_content : String
  metadata : DocMeta
deriving DecidableEq

/-- Fallback document for list indexing (never used on aligned inputs). -/
def defaultDoc : Doc :=
  { page_content := "", metadata := { entity_id := none, domain := none } }

/-- A synthesized command dict.  The confirmation handler reads exactly two
fields: `cmd.get("service", "unknown")` and
`cmd.get("data", {}).get("entity_id", "unknown")`; both are modelled as
optional strings. -/
structure Cmd where
  service : Option String
  dataEntityId : Option String
deriving DecidableEq

/-- A pending session stored in `hass.data["special_agent_pending"]`
(agent_logic.py lines 147-152).  `timestamp` is `none` when the dict lacks
the `"timestamp"` key (the cleanup sweep guards on `"timestamp" in session`);
times are modelled as integer seconds. -/
structure Session where
  commandsList : List Cmd
  status : String
  timestamp : Option Int
  entityId : String
deriving DecidableEq

/-- The session dictionary keyed by device id, viewed pointwise. -/
def PendingMap : Type :=
  String → Option Session

/-- Python `pending_dict.pop(device_id, None)` as a map transformer. -/
def popKey (m : PendingMap) (k : String) : PendingMap :=
  fun x => if x = k then none else m x

/-- The empty session dictionary. -/
def emptyPending : PendingMap :=
  fun _ => none

/-! ### Session timeout sweep (agent_logic.py lines 24-50, 74-78) -/

/-- Session timeout in seconds (agent_logic.py line 25). -/
def SESSION_TIMEOUT : Int := 300

/-- Translation of `check_and_cleanup_sessions` (agent_logic.py lines 29-50):
every session whose `"timestamp"` is present and whose age `now - timestamp`
exceeds `SESSION_TIMEOUT` is removed; every other entry is kept as is.  The
Python function also returns the number of evictions, used only for logging. -/
def check_and_cleanup_sessions (now : Int) (m : PendingMap) : PendingMap :=
  fun k =>
    match m k with
    | none => none
    | some s =>
      match s.timestamp with
      | none => some s
      | some t => if now - t > SESSION_TIMEOUT then none else some s

/-- The sweep as performed at the start of `process_conversation_input`
(agent_logic.py lines 74-78): it runs before the incoming key is consulted
and does not depend on it. -/
def sweep_on_request (_incoming_key : String) (now : Int) (m : PendingMap) :
    PendingMap :=
  check_and_cleanup_sessions now m

/-! ### Confirmation handler (agent_logic.py lines 320-396) -/

/-- The affirmative vocabulary (agent_logic.py line 331). -/
def affirmative_responses : List String :=
  ["yes", "yep", "yeah", "sure", "go ahead"]

/-- The negative vocabulary (agent_logic.py line 375). -/
def negative_responses : List String :=
  ["no", "nope", "nah"]

/-- Python `user_text.strip().lower()` (agent_logic.py line 325). -/
def loweredText (user_text : String) : String :=
  pyLower (pyStrip user_text)

/-- The failure label `f"{service_name} for {entity_id}"` built at
agent_logic.py lines 338-344. -/
def cmdLabel (c : Cmd) : String :=
  c.service.getD "unknown" ++ " for " ++ c.dataEntityId.getD "unknown"

/-- Result of one invocation of the confirmation handler: the returned
`(response, success)` pair, the session dictionary afterwards, and the
sequence of `execute_ha_command` calls made (command, returned flag), in
order. -/
structure ConfirmResult where
  response : String
  success : Bool
  newMap : PendingMap
  executedCalls : List (Cmd × Bool)

/-- Translation of `handle_confirmation_phase` (agent_logic.py lines
320-396).  `execCmd` abstracts the external executor
`execute_ha_command(cmd, hass)`. -/
def handle_confirmation_phase (execCmd : Cmd → Bool) (user_text : String)
    (pending : Session) (device_id : String) (m : PendingMap) : ConfirmResult :=
  let lowered := loweredText user_text
  let commands_list := pending.commandsList
  if lowered ∈ affirmative_responses then
    let calls := commands_list.map (fun c => (c, execCmd c))
    let failed_cmds := (calls.filter (fun p => !p.2)).map (fun p => cmdLabel p.1)
    let success_flag := calls.all (fun p => p.2)
    let response :=
      if success_flag then "Done."
      else if failed_cmds.length = commands_list.length then
        "Sorry, I couldn\x27t complete any of the requested actions."
      else
        "Completed some actions, but had trouble with: " ++
          joinSep ", " (failed_cmds.take 2) ++
          (if failed_cmds.length > 2 then
            " and " ++ toString (failed_cmds.length - 2) ++ " more"
          else "")
    { response := response, success := success_flag,
      newMap := popKey m device_id, executedCalls := calls }
  else if lowered ∈ negative_responses then
    { response := "Request canceled.", success := true,
      newMap := popKey m device_id, executedCalls := [] }
  else
    { response := "Please say yes or no.", success := false,
      newMap := m, executedCalls := [] }

/-! ### Entity filter (entity_refinement.py lines 71-122) -/

/-- An entity state as read by the filter: `s.get("domain", "")` and
`s.get("name", "")`; the defaulted lookups are modelled as plain string
fields. -/
structure EntityState where
  domain : String
  name : String
deriving DecidableEq

/-- The fixed exclusion set (entity_refinement.py lines 79-100). -/
def EXCLUDED_DOMAINS : List String :=
  ["number", "switch", "binary_sensor", "automation", "assist_satellite",
   "button", "camera", "conversation", "event", "input_select", "script",
   "select", "sensor", "stt", "sun", "tts", "time", "update", "wake_word",
   "zone"]

/-- Inner predicate `is_irrelevant_entity` (entity_refinement.py lines
102-114). -/
def is_irrelevant_entity (s : EntityState) : Bool :=
  if EXCLUDED_DOMAINS.contains s.domain then true
  else if s.domain == "number" && strIn "led" (pyLower s.name) then true
  else false

/-- Translation of `filter_irrelevant_entities` (entity_refinement.py lines
71-122). -/
def filter_irrelevant_entities (all_states : List EntityState) :
    List EntityState :=
  all_states.filter (fun st => !is_irrelevant_entity st)

/-! ### Reranker (entity_refinement.py lines 175-243) -/

/-- The fixed room-name list (entity_refinement.py line 180). -/
def location_words : List String :=
  ["office", "living room", "bedroom", "nursery", "kitchen"]

/-- The fixed preferred-domain priority list (entity_refinement.py line
185). -/
def preferred_domains : List String :=
  ["light", "climate", "fan", "media_player", "switch", "cover"]

/-- Translation of `extract_domain` (entity_refinement.py lines 228-243). -/
def extract_domain (doc : Doc) : String :=
  match doc.metadata.domain with
  | some d => d
  | none =>
    let ent_id := doc.metadata.entity_id.getD ""
    if strIn "." ent_id then beforeFirstDot ent_id else "unknown"

/-- The score assigned to the candidate at 0-based rank `i` out of `n`
(entity_refinement.py lines 188-210): base `(n - i)`, domain bonus
`(len(preferred_domains) - idx) * 5`, flat `+10` location bonus when the
detected location hint occurs in the lowercased content, flat `-5` penalty
for sensor-like domains. -/
def doc_score (location_hint : Option String) (n i : Nat) (doc : Doc) : Int :=
  let base : Int := (n : Int) - (i : Int)
  let dom := extract_domain doc
  let domain_bonus : Int :=
    match preferred_domains.findIdx? (fun p => p == dom) with
    | some idx => ((preferred_domains.length : Int) - (idx : Int)) * 5
    | none => 0
  let location_bonus : Int :=
    match location_hint with
    | some h => if strIn h (pyLower doc.page_content) then 10 else 0
    | none => 0
  let sensor_penalty : Int :=
    if dom == "sensor" || dom == "binary_sensor" || dom == "automation" then
      -5
    else 0
  base + domain_bonus + location_bonus + sensor_penalty

/-- Ordering used to model the stable descending Python sort
`scored.sort(key=lambda x: x[0], reverse=True)`: higher score first and,
on equal scores, the candidate with the smaller original rank first
(Python's sort is stable and `reverse=True` preserves tie order). -/
def rerankOrder (a b : Int × Nat × Doc) : Prop :=
  b.1 < a.1 ∨ (a.1 = b.1 ∧ a.2.1 ≤ b.2.1)

instance rerankOrderDec : DecidableRel rerankOrder := fun a b => by
  unfold rerankOrder
  exact inferInstance

/-- Translation of `rerank_and_filter_docs` (entity_refinement.py lines
175-217): detect the first location word occurring in the lowercased query,
score every candidate, sort descending by score (stable), keep the first
`filter_qty`. -/
def rerank_and_filter_docs (user_text : String) (docs : List Doc)
    (filter_qty : Nat := 10) : List Doc :=
  let text_lower := pyLower user_text
  let location_hint := location_words.find? (fun w => strIn w text_lower)
  let n := docs.length
  let scored := docs.enum.map (fun p => (doc_score location_hint n p.1 p.2, p))
  let sortedScored := List.insertionSort rerankOrder scored
  (sortedScored.map (fun q => q.2.2)).take filter_qty

/-! ### Embedding store load (vector_index.py lines 328-389)

The on-disk artifacts are abstracted: for each of the two files, the outer
`Option` is `none` when the file is missing (`os.path.exists` fails) and the
inner `Option` is `none` when reading raises (`np.load` / `json.load` / the
`shape[1]` access on a non-2-D array).  A successfully read `.npy` matrix is
abstracted by its shape. -/

structure NpMatrix where
  nrows : Nat
  ncols : Nat
deriving DecidableEq

structure PersistState where
  embeddingsFile : Option (Option NpMatrix)
  mappingFile : Option (Option (List Doc))

/-- Translation of `load_vector_index` (vector_index.py lines 328-389) with
`auto_rebuild=False` (the value used by `process_conversation_input`): if
either file is missing return the `(None, None, None)` signal; otherwise read
the matrix then the mapping, returning the signal if either read raises, and
otherwise `(matrix, docs, matrix.shape[1])`.  The result triple is modelled
as `Option (matrix × docs × dim)` with `none` for `(None, None, None)`. -/
def load_vector_index (st : PersistState) :
    Option (NpMatrix × List Doc × Nat) :=
  match st.embeddingsFile, st.mappingFile with
  | some embRead, some mapRead =>
    match embRead with
    | none => none
    | some matrix =>
      match mapRead with
      | none => none
      | some docs => some (matrix, docs, matrix.ncols)
  | _, _ => none

/-- The claim's NotFound condition for `load_vector_index`: an artifact is
missing or unreadable, or the row count disagrees with the document count
(stated from the spec's words, to compare with the source translation). -/
def claimLoadFails (st : PersistState) : Prop :=
  st.embeddingsFile = none ∨ st.mappingFile = none ∨
  st.embeddingsFile = some none ∨ st.mappingFile = some none ∨
  (∃ m ds, st.embeddingsFile = some (some m) ∧ st.mappingFile = some (some ds)
    ∧ m.nrows ≠ ds.length)

/-! ### Similarity retriever selection (vector_index.py lines 447-470)

Embedding the query and taking dot products with the unit-normalized rows
(steps 1-4 of `query_vector_index`) involve the external embedding provider
and floating-point arithmetic; the resulting `similarities` array is taken
as an input `sims` (one score per stored document).  Step 5, the part under
verification, is `similarities.argsort()[-k:][::-1]` followed by indexing
`documents`.  NumPy's tie behaviour is modelled as the stable ascending
argsort (equal scores keep their index order). -/

/-- Score of document `i` in the similarity array. -/
def simKey (sims : List Int) (i : Nat) : Int :=
  sims.getD i 0

/-- Stable ascending comparison on indices: smaller score first, ties by
smaller index first. -/
def ascRel (sims : List Int) (i j : Nat) : Prop :=
  simKey sims i < simKey sims j ∨ (simKey sims i = simKey sims j ∧ i ≤ j)

instance ascRelDec (sims : List Int) : DecidableRel (ascRel sims) :=
  fun i j => by
    unfold ascRel
    exact inferInstance

/-- Descending comparison with ties broken toward the larger index: this is
the order in which `argsort()[::-1]` emits indices. -/
def codeDescRel (sims : List Int) (i j : Nat) : Prop :=
  simKey sims j < simKey sims i ∨ (simKey sims i = simKey sims j ∧ j ≤ i)

instance codeDescRelDec (sims : List Int) : DecidableRel (codeDescRel sims) :=
  fun i j => by
    unfold codeDescRel
    exact inferInstance

/-- Descending comparison with ties broken toward the smaller index: the
ordering asserted by the claim (earlier document first on equal
similarity), stated from the spec's words. -/
def claimDescRel (sims : List Int) (i j : Nat) : Prop :=
  simKey sims j < simKey sims i ∨ (simKey sims i = simKey sims j ∧ i ≤ j)

instance claimDescRelDec (sims : List Int) : DecidableRel (claimDescRel sims) :=
  fun i j => by
    unfold claimDescRel
    exact inferInstance

/-- NumPy `similarities.argsort()` under the stable model. -/
def argsortStable (sims : List Int) : List Nat :=
  List.insertionSort (ascRel sims) (List.range sims.length)

/-- Python `l[-k:]`: the last `k` elements, the whole list when `k = 0`. -/
def pyLastSlice (k : Nat) (l : List α) : List α :=
  if k = 0 then l else l.drop (l.length - k)

/-- The index selection `similarities.argsort()[-k:][::-1]`
(vector_index.py line 460). -/
def query_top_indices (sims : List Int) (k : Nat) : List Nat :=
  (pyLastSlice k (argsortStable sims)).reverse

/-- Translation of the selection loop of `query_vector_index`
(vector_index.py lines 459-470): the documents at the chosen indices, in
order. -/
def query_vector_index (sims : List Int) (docs : List Doc) (k : Nat) :
    List Doc :=
  (query_top_indices sims k).map (fun i => docs.getD i defaultDoc)

/-- Ranking described by the amended claim: all indices sorted descending by
similarity with ties broken toward the later document, truncated to `k`. -/
def stable_desc_top_indices (sims : List Int) (k : Nat) : List Nat :=
  (List.insertionSort (codeDescRel sims) (List.range sims.length)).take k

/-- Ranking asserted by the original claim: descending with ties broken
toward the earlier document, truncated to `k` (from the spec's words). -/
def claim_top_indices (sims : List Int) (k : Nat) : List Nat :=
  (List.insertionSort (claimDescRel sims) (List.range sims.length)).take k

/-! ### Orchestrator fragments (agent_logic.py lines 110-192) -/

/-- The music line appended first when a Spotify URI was found
(agent_logic.py lines 112-113); Python `if spotify_uri:` is falsy both for
`None` and for the empty string. -/
def spotify_context (spotify_uri : Option String) : List String :=
  match spotify_uri with
  | none => []
  | some u =>
    if u = "" then []
    else ["The user wants music, please play on media player using spotify URI => " ++ u]

/-- The explicit no-devices-matched marker (agent_logic.py lines 115-117). -/
def no_match_marker : String :=
  "No devices matched. If the user wants to control a device, guess from context."

/-- Snippet of one candidate: `doc["page_content"][:1000]` (agent_logic.py
line 120). -/
def doc_snippet (d : Doc) : String :=
  strTake 1000 d.page_content

/-- Translation of the combined-context assembly (agent_logic.py lines
110-122). -/
def build_combined_context (spotify_uri : Option String)
    (final_docs : List Doc) : String :=
  joinSep "\n\n" (spotify_context spotify_uri ++
    (if final_docs.length = 0 then [no_match_marker]
     else final_docs.map doc_snippet))

/-! ### Command-synthesis parse step (agent_logic.py lines 126-192)

`json.loads` is the Python standard library; its result is abstracted as an
`Option Json` input (`none` when the string is not valid JSON, i.e. the call
raises). -/

inductive Json where
  | null
  | bool (b : Bool)
  | num (n : Int)
  | str (s : String)
  | arr (l : List Json)
  | obj (o : List (String × Json))

/-- Normalization of the parsed synthesis output (agent_logic.py lines
130-138): a dict becomes a one-element list, a list is kept as is, anything
else (including a parse failure) yields no command list. -/
def normalize_commands (parsed : Option Json) : Option (List Json) :=
  match parsed with
  | some (Json.obj o) => some [Json.obj o]
  | some (Json.arr l) => some l
  | _ => none

/-- Parse results on which the source takes a failure exit: the string was
not valid JSON, or it parsed to something other than an object or array. -/
def parseRejected (parsed : Option Json) : Prop :=
  match parsed with
  | some (Json.obj _) => False
  | some (Json.arr _) => False
  | _ => True

/-- Session store as observed by the parse step: the commands list kept per
device key. -/
def JsonSessions : Type :=
  String → Option (List Json)

/-- Translation of the parse-and-store step of the control branch
(agent_logic.py lines 129-192): on a bad parse return `(None, False)` and
leave the session store untouched; otherwise store the normalized list under
the device key and return the (externally generated) friendly confirmation
with `success=False`.  The returned pair is `(response, success)` with the
response abstracted to `Option String`. -/
def control_parse_step (parsed : Option Json) (friendly : String)
    (device_id : String) (sessions : JsonSessions) :
    (Option String × Bool) × JsonSessions :=
  match normalize_commands parsed with
  | none => ((none, false), sessions)
  | some l =>
    ((some friendly, false),
      fun k => if k = device_id then some l else sessions k)

/-! ### Concrete fixtures used by scenario conjuncts, witnesses and
counterexamples -/

/-- First example command of the two-command confirmation scenario. -/
def exCmd1 : Cmd :=
  { service := some "light.turn_on", dataEntityId := some "light.living_room" }

/-- Second example command of the two-command confirmation scenario. -/
def exCmd2 : Cmd :=
  { service := some "switch.turn_on", dataEntityId := some "switch.fan" }

/-- A pending session holding the two example commands. -/
def exSession2 : Session :=
  { commandsList := [exCmd1, exCmd2], status := "awaiting_confirmation",
    timestamp := some 0, entityId := "dev" }

/-- Executor returning `[True, False]` on the two example commands. -/
def exExecTF : Cmd → Bool :=
  fun c => c == exCmd1

/-- Executor returning `True` for every command. -/
def exExecTT : Cmd → Bool :=
  fun _ => true

/-- Session dictionary holding `exSession2` under key `"dev"`. -/
def exMapDev : PendingMap :=
  fun k => if k = "dev" then some exSession2 else none

/-- A session created at time 0 (expired at time 400). -/
def wSessionOld : Session :=
  { commandsList := [exCmd1], status := "awaiting_confirmation",
    timestamp := some 0, entityId := "d1" }

/-- A session created at time 350 (alive at time 400). -/
def wSessionNew : Session :=
  { commandsList := [exCmd2], status := "awaiting_confirmation",
    timestamp := some 350, entityId := "d2" }

/-- Session dictionary holding both sessions. -/
def wMap : PendingMap :=
  fun k =>
    if k = "d1" then some wSessionOld
    else if k = "d2" then some wSessionNew
    else none

/-- The four candidate documents of the rerank scenario, exactly as built in
tests/test_entity_refinement.py. -/
def tdocLR : Doc :=
  { page_content := "Entity: light.living_room\nName: Living Room Light",
    metadata := { entity_id := some "light.living_room", domain := none } }

def tdocBR : Doc :=
  { page_content := "Entity: light.bedroom\nName: Bedroom Light",
    metadata := { entity_id := some "light.bedroom", domain := none } }

def tdocSN : Doc :=
  { page_content := "Entity: sensor.temperature\nName: Temperature Sensor",
    metadata := { entity_id := some "sensor.temperature", domain := none } }

def tdocMP : Doc :=
  { page_content := "Entity: media_player.living_room\nName: Living Room Speaker",
    metadata := { entity_id := some "media_player.living_room", domain := none } }

/-- Documents for the retriever examples. -/
def cexDocA : Doc :=
  { page_content := "Entity: light.a",
    metadata := { entity_id := some "light.a", domain := none } }

def cexDocB : Doc :=
  { page_content := "Entity: light.b",
    metadata := { entity_id := some "light.b", domain := none } }

def cexDocC : Doc :=
  { page_content := "Entity: light.c",
    metadata := { entity_id := some "light.c", domain := none } }

/-- Candidate document for the combined-context counterexample. -/
def cexDoc7 : Doc :=
  { page_content := "Entity: light.kitchen\nName: Kitchen Light",
    metadata := { entity_id := some "light.kitchen", domain := none } }

/-- Persisted state whose matrix has 2 rows while the mapping holds a single
document. -/
def cexMismatchState : PersistState :=
  { embeddingsFile := some (some { nrows := 2, ncols := 3 }),
    mappingFile := some (some [cexDoc7]) }

/-! ### Helper lemmas -/

/-- Appending the no-match marker never yields the empty string. -/
theorem append_marker_ne_empty (pre : String) :
    pre ++ no_match_marker ≠ "" := by
  intro h
  have h2 := congrArg String.length h
  rw [String.length_append] at h2
  have h3 : 0 < no_match_marker.length := by decide
  have h4 : ("" : String).length = 0 := rfl
  omega

/-- Unfolding of `build_combined_context` when at least one candidate is
present. -/
theorem build_combined_context_of_docs_ne_nil (uri : Option String)
    (docs : List Doc) (hne : docs ≠ []) :
    build_combined_context uri docs =
      joinSep "\n\n" (spotify_context uri ++ docs.map doc_snippet) := by
  have hlen : ¬ docs.length = 0 := by
    cases docs with
    | nil => exact absurd rfl hne
    | cons a l => simp
  unfold build_combined_context
  rw [if_neg hlen]

/-! ### Claim theorems -/

/-- C2: the sweep performed at the start of request processing evicts the
session stored under any key `k` exactly when its age `now - t` exceeds the
300-second timeout, keeps it with unchanged contents otherwise, and the
sweep does not depend on the key that triggered the request. -/
theorem C2_session_sweep (incoming_key : String) (now : Int) (m : PendingMap)
    (k : String) (s : Session) (t : Int)
    (hk : m k = some s) (ht : s.timestamp = some t) :
    (sweep_on_request incoming_key now m k =
      if now - t > SESSION_TIMEOUT then none else some s) ∧
    ∀ other_key : String,
      sweep_on_request other_key now m = sweep_on_request incoming_key now m := by
  constructor
  · simp [sweep_on_request, check_and_cleanup_sessions, hk, ht]
  · intro _
    rfl

/-- Witness for C2 at a concrete two-session dictionary swept at time 400 by
a request on a different key. -/
theorem C2_session_sweep_witness :
    wMap "d1" = some wSessionOld ∧ wSessionOld.timestamp = some 0 ∧
    ((sweep_on_request "d2" 400 wMap "d1" =
        if (400 : Int) - 0 > SESSION_TIMEOUT then none else some wSessionOld) ∧
      ∀ other_key : String,
        sweep_on_request other_key 400 wMap = sweep_on_request "d2" 400 wMap) :=
  ⟨by decide, rfl, C2_session_sweep "d2" 400 wMap "d1" wSessionOld 0 (by decide) rfl⟩

/-- C3 (amended): `load_vector_index` returns the `(None, None, None)` signal
exactly when one of the two artifacts is missing or unreadable; when both
read successfully it returns the matrix, document list and dimension as-is,
performing no row-count/document-count consistency check. -/
theorem C3_load_vector_index_failure_cases :
    (∀ st : PersistState,
      (load_vector_index st = none ↔
        st.embeddingsFile = none ∨ st.mappingFile = none ∨
        st.embeddingsFile = some none ∨ st.mappingFile = some none)) ∧
    (∀ (m : NpMatrix) (ds : List Doc),
      load_vector_index
          { embeddingsFile := some (some m), mappingFile := some (some ds) }
        = some (m, ds, m.ncols)) := by
  constructor
  · intro st
    rcases st with ⟨emb, map⟩
    rcases emb with _ | emb <;> rcases map with _ | map
    · simp [load_vector_index]
    · simp [load_vector_index]
    · simp [load_vector_index]
    · rcases emb with _ | mtx <;> rcases map with _ | ds <;>
        simp [load_vector_index]
  · intro m ds
    rfl

/-- Counterexample to C3 as stated: a readable pair whose matrix has 2 rows
against a single mapped document satisfies the claim's failure condition,
yet `load_vector_index` does not return the NotFound signal. -/
theorem C3_load_mismatch_counterexample :
    claimLoadFails cexMismatchState ∧
    load_vector_index cexMismatchState ≠ none := by
  constructor
  · refine Or.inr (Or.inr (Or.inr (Or.inr
      ⟨{ nrows := 2, ncols := 3 }, [cexDoc7], rfl, rfl, ?_⟩)))
    decide
  · decide

/-- C5: evaluating the reranker on the four-document scenario from the spec
and from tests/test_entity_refinement.py.  The code keeps
`light.bedroom` in second place (domain bonus 30 at base 3 beats
`media_player.living_room`, domain bonus 15 plus location bonus 10 at base
1), so the output is NOT the `[light.living_room, media_player.living_room]`
asserted by the repository's own test. -/
theorem C5_rerank_scenario_divergence :
    rerank_and_filter_docs "Turn on the living room lights"
        [tdocLR, tdocBR, tdocSN, tdocMP] 2 = [tdocLR, tdocBR] ∧
    rerank_and_filter_docs "Turn on the living room lights"
        [tdocLR, tdocBR, tdocSN, tdocMP] 2 ≠ [tdocLR, tdocMP] ∧
    doc_score (some "living room") 4 0 tdocLR = 44 ∧
    doc_score (some "living room") 4 1 tdocBR = 33 ∧
    doc_score (some "living room") 4 3 tdocMP = 26 :=
  ⟨by decide, by decide, by decide, by decide, by decide⟩

/-- C6: a parsed JSON object is normalized to a one-element command list, an
array is kept as-is, and a parse failure or any other JSON shape makes the
control branch return no command with `success=False` and leave the session
store untouched. -/
theorem C6_parse_normalization :
    (∀ o : List (String × Json),
      normalize_commands (some (Json.obj o)) = some [Json.obj o]) ∧
    (∀ l : List Json, normalize_commands (some (Json.arr l)) = some l) ∧
    (∀ (parsed : Option Json) (friendly device_id : String)
        (sessions : JsonSessions),
      parseRejected parsed →
        control_parse_step parsed friendly device_id sessions
            = ((none, false), sessions) ∧
          normalize_commands parsed = none) := by
  refine ⟨fun o => rfl, fun l => rfl, ?_⟩
  intro parsed friendly device_id sessions h
  cases parsed with
  | none => exact ⟨rfl, rfl⟩
  | some j =>
    cases j with
    | null => exact ⟨rfl, rfl⟩
    | bool b => exact ⟨rfl, rfl⟩
    | num n => exact ⟨rfl, rfl⟩
    | str s => exact ⟨rfl, rfl⟩
    | arr l => exact False.elim h
    | obj o => exact False.elim h

/-- Witness for C6 at the concrete non-object, non-array parse result. -/
theorem C6_parse_normalization_witness :
    parseRejected (some (Json.str "not a command")) ∧
    control_parse_step (some (Json.str "not a command")) "ok" "dev"
        (fun _ => none) = ((none, false), fun _ => none) :=
  ⟨trivial,
    (C6_parse_normalization.2.2 (some (Json.str "not a command")) "ok" "dev"
      (fun _ => none) trivial).1⟩

/-- C8: a confirmation response that is neither affirmative nor negative
yields the re-prompt with `success=False` and leaves the whole session
dictionary, in particular the entry for the key, unchanged; no command is
executed. -/
theorem C8_unrecognized_reprompt (execCmd : Cmd → Bool) (user_text : String)
    (pending : Session) (device_id : String) (m : PendingMap)
    (h1 : loweredText user_text ∉ affirmative_responses)
    (h2 : loweredText user_text ∉ negative_responses) :
    handle_confirmation_phase execCmd user_text pending device_id m =
      { response := "Please say yes or no.", success := false,
        newMap := m, executedCalls := [] } ∧
    (handle_confirmation_phase execCmd user_text pending device_id m).newMap
        device_id = m device_id := by
  constructor <;>
    (unfold handle_confirmation_phase; rw [if_neg h1, if_neg h2])

/-- Witness for C8 with the scenario text `"maybe"` against a live
session. -/
theorem C8_unrecognized_reprompt_witness :
    loweredText "maybe" ∉ affirmative_responses ∧
    loweredText "maybe" ∉ negative_responses ∧
    (handle_confirmation_phase exExecTT "maybe" exSession2 "dev" exMapDev =
      { response := "Please say yes or no.", success := false,
        newMap := exMapDev, executedCalls := [] } ∧
     (handle_confirmation_phase exExecTT "maybe" exSession2 "dev"
        exMapDev).newMap "dev" = exMapDev "dev") :=
  ⟨by decide, by decide,
    C8_unrecognized_reprompt exExecTT "maybe" exSession2 "dev" exMapDev
      (by decide) (by decide)⟩

/-- C9: the entity filter is idempotent — filtering an already-filtered list
removes nothing further. -/
theorem C9_filter_idempotent (all_states : List EntityState) :
    filter_irrelevant_entities (filter_irrelevant_entities all_states) =
      filter_irrelevant_entities all_states := by
  unfold filter_irrelevant_entities
  rw [List.filter_filter]
  simp only [Bool.and_self]

/-- C10: a negative confirmation response executes no command, removes the
session for the key, and returns `("Request canceled.", True)` — the success
flag is `True` on the cancellation path although nothing was executed. -/
theorem C10_negative_cancel (execCmd : Cmd → Bool) (user_text : String)
    (pending : Session) (device_id : String) (m : PendingMap)
    (hneg : loweredText user_text ∈ negative_responses) :
    handle_confirmation_phase execCmd user_text pending device_id m =
      { response := "Request canceled.", success := true,
        newMap := popKey m device_id, executedCalls := [] } ∧
    (handle_confirmation_phase execCmd user_text pending device_id m).newMap
        device_id = none := by
  have hnaff : loweredText user_text ∉ affirmative_responses := by
    intro haff
    simp only [negative_responses, List.mem_cons, List.not_mem_nil,
      or_false] at hneg
    rcases hneg with h | h | h <;> rw [h] at haff <;>
      simp [affirmative_responses] at haff
  constructor
  · unfold handle_confirmation_phase
    rw [if_neg hnaff, if_pos hneg]
  · unfold handle_confirmation_phase
    rw [if_neg hnaff, if_pos hneg]
    simp [popKey]

/-- Witness for C10 with the concrete response `"no"`. -/
theorem C10_negative_cancel_witness :
    loweredText "no" ∈ negative_responses ∧
    (handle_confirmation_phase exExecTT "no" exSession2 "dev" exMapDev =
      { response := "Request canceled.", success := true,
        newMap := popKey exMapDev "dev", executedCalls := [] } ∧
     (handle_confirmation_phase exExecTT "no" exSession2 "dev"
        exMapDev).newMap "dev" = none) :=
  ⟨by decide,
    C10_negative_cancel exExecTT "no" exSession2 "dev" exMapDev (by decide)⟩

/-- C7 (amended): with zero retrieval candidates the combined context
contains the no-match marker and is non-empty; with at least one candidate
the context is the newline-joined sequence of the optional music line
followed by the 1000-character snippets, so it equals the plain joined
snippets exactly when no music line was added. -/
theorem C7_combined_context (uri : Option String) (docs : List Doc) :
    (docs = [] →
      no_match_marker.data <:+: (build_combined_context uri docs).data ∧
      build_combined_context uri docs ≠ "") ∧
    (docs ≠ [] →
      build_combined_context uri docs =
        joinSep "\n\n" (spotify_context uri ++ docs.map doc_snippet)) ∧
    (spotify_context uri = [] → docs ≠ [] →
      build_combined_context uri docs = joinSep "\n\n" (docs.map doc_snippet)) := by
  refine ⟨?_, ?_, ?_⟩
  · intro hd
    subst hd
    rcases uri with _ | u
    · exact ⟨List.infix_rfl, by decide⟩
    · by_cases hu : u = ""
      · subst hu
        exact ⟨List.infix_rfl, by decide⟩
      · have hred : build_combined_context (some u) [] =
            (("The user wants music, please play on media player using spotify URI => "
              ++ u) ++ "\n\n") ++ no_match_marker := by
          unfold build_combined_context spotify_context
          dsimp only
          rw [if_neg hu]
          rfl
        constructor
        · rw [hred, String.data_append]
          exact (List.suffix_append _ _).isInfix
        · rw [hred]
          exact append_marker_ne_empty _
  · exact build_combined_context_of_docs_ne_nil uri docs
  · intro hs hne
    rw [build_combined_context_of_docs_ne_nil uri docs hne, hs,
      List.nil_append]

/-- Witness for C7 in the zero-candidate case. -/
theorem C7_combined_context_witness :
    ([] : List Doc) = [] ∧
    (no_match_marker.data <:+: (build_combined_context none []).data ∧
      build_combined_context none [] ≠ "") :=
  ⟨rfl, (C7_combined_context none []).1 rfl⟩

/-- Counterexample to C7 as stated: with a music URI present and one
candidate, the combined context is not the plain concatenation of the
candidate snippets (the music line precedes them). -/
theorem C7_music_context_counterexample :
    build_combined_context (some "spotify:track:abc123") [cexDoc7] ≠
      joinSep "\n\n" ([cexDoc7].map doc_snippet) ∧
    [cexDoc7] ≠ ([] : List Doc) :=
  ⟨by decide, by decide⟩

/-! ### Lemmas for the affirmative confirmation branch -/

/-- The executor call results paired back to their commands determine the
failure labels. -/
theorem failed_labels_eq (execCmd : Cmd → Bool) (cl : List Cmd) :
    ((cl.map (fun c => (c, execCmd c))).filter (fun p => !p.2)).map
        (fun p => cmdLabel p.1)
      = (cl.filter (fun c => !execCmd c)).map cmdLabel := by
  induction cl with
  | nil => rfl
  | cons c cs ih =>
    cases hE : execCmd c <;> simp [List.filter_cons, hE, ih]

/-- The aggregate flag over the call list equals `all` over the commands. -/
theorem all_calls_eq (execCmd : Cmd → Bool) (cl : List Cmd) :
    (cl.map (fun c => (c, execCmd c))).all (fun p => p.2) =
      cl.all (fun c => execCmd c) := by
  induction cl with
  | nil => rfl
  | cons c cs ih => simp [List.all_cons, ih]

/-- Zeta-expanded form of the affirmative branch of
`handle_confirmation_phase`. -/
theorem confirm_aff_eq (execCmd : Cmd → Bool) (user_text : String)
    (pending : Session) (device_id : String) (m : PendingMap)
    (haff : loweredText user_text ∈ affirmative_responses) :
    handle_confirmation_phase execCmd user_text pending device_id m =
      { response :=
          (if (pending.commandsList.map (fun c => (c, execCmd c))).all
              (fun p => p.2) then "Done."
           else if (((pending.commandsList.map (fun c => (c, execCmd c))).filter
                (fun p => !p.2)).map (fun p => cmdLabel p.1)).length
                = pending.commandsList.length then
             "Sorry, I couldn\x27t complete any of the requested actions."
           else
             "Completed some actions, but had trouble with: " ++
               joinSep ", " ((((pending.commandsList.map
                 (fun c => (c, execCmd c))).filter (fun p => !p.2)).map
                 (fun p => cmdLabel p.1)).take 2) ++
               (if (((pending.commandsList.map (fun c => (c, execCmd c))).filter
                   (fun p => !p.2)).map (fun p => cmdLabel p.1)).length > 2 then
                 " and " ++ toString ((((pending.commandsList.map
                   (fun c => (c, execCmd c))).filter (fun p => !p.2)).map
                   (fun p => cmdLabel p.1)).length - 2) ++ " more"
               else "")),
        success := (pending.commandsList.map (fun c => (c, execCmd c))).all
          (fun p => p.2),
        newMap := popKey m device_id,
        executedCalls := pending.commandsList.map (fun c => (c, execCmd c)) } := by
  unfold handle_confirmation_phase
  rw [if_pos haff]

/-- The affirmative branch with the call list folded away: everything is
expressed through the command list and the executor. -/
theorem confirm_aff_clean (execCmd : Cmd → Bool) (user_text : String)
    (pending : Session) (device_id : String) (m : PendingMap)
    (haff : loweredText user_text ∈ affirmative_responses) :
    handle_confirmation_phase execCmd user_text pending device_id m =
      { response :=
          (if pending.commandsList.all (fun c => execCmd c) then "Done."
           else if (pending.commandsList.filter (fun c => !execCmd c)).length
                = pending.commandsList.length then
             "Sorry, I couldn\x27t complete any of the requested actions."
           else
             "Completed some actions, but had trouble with: " ++
               joinSep ", " (((pending.commandsList.filter
                 (fun c => !execCmd c)).map cmdLabel).take 2) ++
               (if (pending.commandsList.filter
                   (fun c => !execCmd c)).length > 2 then
                 " and " ++ toString ((pending.commandsList.filter
                   (fun c => !execCmd c)).length - 2) ++ " more"
               else "")),
        success := pending.commandsList.all (fun c => execCmd c),
        newMap := popKey m device_id,
        executedCalls := pending.commandsList.map (fun c => (c, execCmd c)) } := by
  rw [confirm_aff_eq execCmd user_text pending device_id m haff]
  simp only [all_calls_eq, failed_labels_eq, List.length_map]

/-- C1: on an affirmative response every stored command is attempted in
order, the success flag is true exactly when every executor call returned
true, the session is removed, and the returned message is the plain success
message, the all-failed message, or the message listing at most two
failed command labels plus a count of the rest; in particular the
two-command scenarios with executor results `[True, False]` and
`[True, True]` behave as stated. -/
theorem C1_confirmation_affirmative (execCmd : Cmd → Bool)
    (user_text : String) (pending : Session) (device_id : String)
    (m : PendingMap)
    (haff : loweredText user_text ∈ affirmative_responses) :
    (handle_confirmation_phase execCmd user_text pending device_id
        m).executedCalls
      = pending.commandsList.map (fun c => (c, execCmd c)) ∧
    ((handle_confirmation_phase execCmd user_text pending device_id
        m).success = true ↔
      ∀ c ∈ pending.commandsList, execCmd c = true) ∧
    (handle_confirmation_phase execCmd user_text pending device_id m).newMap
        device_id = none ∧
    ((∀ c ∈ pending.commandsList, execCmd c = true) →
      (handle_confirmation_phase execCmd user_text pending device_id
        m).response = "Done.") ∧
    (pending.commandsList ≠ [] →
      (∀ c ∈ pending.commandsList, execCmd c = false) →
      (handle_confirmation_phase execCmd user_text pending device_id
        m).response =
        "Sorry, I couldn\x27t complete any of the requested actions.") ∧
    (pending.commandsList.filter (fun c => !execCmd c) ≠ [] →
      (pending.commandsList.filter (fun c => !execCmd c)).length ≠
        pending.commandsList.length →
      (handle_confirmation_phase execCmd user_text pending device_id
        m).response =
        "Completed some actions, but had trouble with: " ++
          joinSep ", " (((pending.commandsList.filter
            (fun c => !execCmd c)).map cmdLabel).take 2) ++
          (if (pending.commandsList.filter (fun c => !execCmd c)).length > 2
           then " and " ++ toString ((pending.commandsList.filter
             (fun c => !execCmd c)).length - 2) ++ " more"
           else "")) ∧
    (handle_confirmation_phase exExecTF "yes" exSession2 "dev"
        emptyPending).response =
      "Completed some actions, but had trouble with: switch.turn_on for switch.fan" ∧
    (handle_confirmation_phase exExecTF "yes" exSession2 "dev"
        emptyPending).success = false ∧
    (handle_confirmation_phase exExecTT "yes" exSession2 "dev"
        emptyPending).response = "Done." ∧
    (handle_confirmation_phase exExecTT "yes" exSession2 "dev"
        emptyPending).success = true := by
  have hclean := confirm_aff_clean execCmd user_text pending device_id m haff
  refine ⟨?_, ?_, ?_, ?_, ?_, ?_, by decide, by decide, by decide, by decide⟩
  · rw [hclean]
  · rw [hclean]
    dsimp only
    rw [List.all_eq_true]
  · rw [hclean]
    dsimp only
    simp [popKey]
  · intro hall
    have hAll : pending.commandsList.all (fun c => execCmd c) = true :=
      List.all_eq_true.mpr hall
    rw [hclean]
    dsimp only
    rw [if_pos hAll]
  · intro hne hallf
    have hfilter : pending.commandsList.filter (fun c => !execCmd c) =
        pending.commandsList := by
      rw [List.filter_eq_self]
      intro a ha
      rw [hallf a ha]
      rfl
    have hNot : ¬ pending.commandsList.all (fun c => execCmd c) = true := by
      intro h
      obtain ⟨c, hc⟩ := List.exists_mem_of_ne_nil pending.commandsList hne
      have h1 := List.all_eq_true.mp h c hc
      have h2 := hallf c hc
      rw [h2] at h1
      exact Bool.false_ne_true h1
    rw [hclean]
    dsimp only
    rw [if_neg hNot, if_pos (by rw [hfilter])]
  · intro hfne hlenne
    have hNot : ¬ pending.commandsList.all (fun c => execCmd c) = true := by
      intro h
      obtain ⟨c, hc⟩ := List.exists_mem_of_ne_nil _ hfne
      have hmem := List.mem_filter.mp hc
      have h1 := List.all_eq_true.mp h c hmem.1
      rw [h1] at hmem
      exact Bool.false_ne_true hmem.2
    rw [hclean]
    dsimp only
    rw [if_neg hNot, if_neg hlenne]

/-- Witness for C1 at the concrete two-command session with executor results
`[True, False]`. -/
theorem C1_confirmation_affirmative_witness :
    loweredText "yes" ∈ affirmative_responses ∧
    ((handle_confirmation_phase exExecTF "yes" exSession2 "dev"
        emptyPending).executedCalls
      = exSession2.commandsList.map (fun c => (c, exExecTF c)) ∧
     (handle_confirmation_phase exExecTF "yes" exSession2 "dev"
        emptyPending).newMap "dev" = none) :=
  ⟨by decide,
    (C1_confirmation_affirmative exExecTF "yes" exSession2 "dev" emptyPending
      (by decide)).1,
    (C1_confirmation_affirmative exExecTF "yes" exSession2 "dev" emptyPending
      (by decide)).2.2.1⟩

/-! ### Ordering facts for the retriever selection -/

instance ascRelTotal (sims : List Int) : IsTotal Nat (ascRel sims) := by
  constructor
  intro i j
  unfold ascRel
  rcases lt_trichotomy (simKey sims i) (simKey sims j) with h | h | h
  · exact Or.inl (Or.inl h)
  · rcases Nat.le_total i j with hij | hij
    · exact Or.inl (Or.inr ⟨h, hij⟩)
    · exact Or.inr (Or.inr ⟨h.symm, hij⟩)
  · exact Or.inr (Or.inl h)

instance ascRelTrans (sims : List Int) : IsTrans Nat (ascRel sims) := by
  constructor
  intro a b c hab hbc
  unfold ascRel at hab hbc ⊢
  rcases hab with h1 | ⟨e1, l1⟩ <;> rcases hbc with h2 | ⟨e2, l2⟩
  · exact Or.inl (h1.trans h2)
  · exact Or.inl (e2 ▸ h1)
  · exact Or.inl (e1 ▸ h2)
  · exact Or.inr ⟨e1.trans e2, l1.trans l2⟩

instance codeDescRelTotal (sims : List Int) : IsTotal Nat (codeDescRel sims) := by
  constructor
  intro i j
  unfold codeDescRel
  rcases lt_trichotomy (simKey sims i) (simKey sims j) with h | h | h
  · exact Or.inr (Or.inl h)
  · rcases Nat.le_total i j with hij | hij
    · exact Or.inr (Or.inr ⟨h.symm, hij⟩)
    · exact Or.inl (Or.inr ⟨h, hij⟩)
  · exact Or.inl (Or.inl h)

instance codeDescRelTrans (sims : List Int) : IsTrans Nat (codeDescRel sims) := by
  constructor
  intro a b c hab hbc
  unfold codeDescRel at hab hbc ⊢
  rcases hab with h1 | ⟨e1, l1⟩ <;> rcases hbc with h2 | ⟨e2, l2⟩
  · exact Or.inl (h2.trans h1)
  · exact Or.inl (e2 ▸ h1)
  · exact Or.inl (e1 ▸ h2)
  · exact Or.inr ⟨e1.trans e2, l2.trans l1⟩

instance codeDescRelAntisymm (sims : List Int) :
    IsAntisymm Nat (codeDescRel sims) := by
  constructor
  intro a b hab hba
  unfold codeDescRel at hab hba
  rcases hab with h1 | ⟨e1, l1⟩ <;> rcases hba with h2 | ⟨e2, l2⟩
  · exact absurd h2 (lt_asymm h1)
  · rw [e2] at h1
    exact absurd h1 (lt_irrefl _)
  · rw [e1] at h2
    exact absurd h2 (lt_irrefl _)
  · exact Nat.le_antisymm l2 l1

/-- Reversing the stable ascending argsort yields the stable descending
ranking whose ties favour the later index. -/
theorem argsort_reverse_eq_desc (sims : List Int) :
    (argsortStable sims).reverse =
      List.insertionSort (codeDescRel sims) (List.range sims.length) := by
  apply List.eq_of_perm_of_sorted (r := codeDescRel sims)
  · exact ((List.reverse_perm _).trans
      (List.perm_insertionSort _ _)).trans
      (List.perm_insertionSort (codeDescRel sims) _).symm
  · have h := List.sorted_insertionSort (ascRel sims) (List.range sims.length)
    refine List.pairwise_reverse.mpr (List.Pairwise.imp ?_ h)
    intro a b hab
    rcases hab with h1 | ⟨e, le⟩
    · exact Or.inl h1
    · exact Or.inr ⟨e.symm, le⟩
  · exact List.sorted_insertionSort _ _

/-- The slice-and-reverse selection of the code equals truncating the stable
descending ranking, for every `k ≥ 1`. -/
theorem query_top_indices_eq (sims : List Int) (k : Nat) (hk : 1 ≤ k) :
    query_top_indices sims k = stable_desc_top_indices sims k := by
  have hne : ¬ k = 0 := by omega
  have hlen : (argsortStable sims).length = sims.length := by
    unfold argsortStable
    rw [(List.perm_insertionSort _ _).length_eq, List.length_range]
  have hdlen : (List.insertionSort (codeDescRel sims)
      (List.range sims.length)).length = sims.length := by
    rw [(List.perm_insertionSort _ _).length_eq, List.length_range]
  unfold query_top_indices pyLastSlice stable_desc_top_indices
  rw [if_neg hne, List.reverse_drop, argsort_reverse_eq_desc, hlen]
  rcases le_or_lt k sims.length with h | h
  · rw [show sims.length - (sims.length - k) = k by omega]
  · rw [show sims.length - (sims.length - k) = sims.length by omega]
    rw [List.take_of_length_le (by omega), List.take_of_length_le (by omega)]

/-- C4 (amended): for every `k ≥ 1` the retriever returns the documents of
the `min(k, N)` highest similarity scores in descending order, where two
documents with equal similarity appear with the LATER one first (the
ascending argsort is reversed). -/
theorem C4_retriever_topk (sims : List Int) (docs : List Doc) (k : Nat)
    (hk : 1 ≤ k) :
    query_vector_index sims docs k =
      (stable_desc_top_indices sims k).map (fun i => docs.getD i defaultDoc) := by
  unfold query_vector_index
  rw [query_top_indices_eq sims k hk]

/-- Witness for C4 at a concrete three-document index. -/
theorem C4_retriever_topk_witness :
    1 ≤ 2 ∧
    query_vector_index [5, 2, 9] [cexDocA, cexDocB, cexDocC] 2 =
      (stable_desc_top_indices [5, 2, 9] 2).map
        (fun i => [cexDocA, cexDocB, cexDocC].getD i defaultDoc) :=
  ⟨by decide,
    C4_retriever_topk [5, 2, 9] [cexDocA, cexDocB, cexDocC] 2 (by decide)⟩

/-- Counterexample to C4 as stated: with two equally similar documents the
retriever returns the later document first, not the earlier one as the
claimed tie-break prescribes. -/
theorem C4_tie_counterexample :
    query_vector_index [3, 3] [cexDocA, cexDocB] 2 = [cexDocB, cexDocA] ∧
    query_vector_index [3, 3] [cexDocA, cexDocB] 2 ≠
      (claim_top_indices [3, 3] 2).map
        (fun i => [cexDocA, cexDocB].getD i defaultDoc) :=
  ⟨by decide, by decide⟩

end SpecialAgent
